import Mathlib

/-!
Verification development for the medicine-quality-monitor repository.

The repository ships a React frontend (HomePage, App, AdminLogin,
AdminDashboard) and a README describing a FastAPI backend.  The backend
source itself (server.py: registry lookup, expiry evaluation, anomaly
scoring, classification, stats aggregation) is not part of the checked-in
sources, so the backend components are modelled from the specification
text; every such definition carries a doc comment starting with
"Modelled from the spec:".  The frontend definitions are shallow
embeddings of the JavaScript in the repository.
-/

namespace MedMonitor

/-! ### Backend data model (modelled from the spec) -/

/-- Modelled from the spec: the closed enumeration of the four terminal
verification outcomes of §4.4 (the backend source is not in the repository). -/
inductive Status
  | Fake
  | Expired
  | Suspected
  | Valid
deriving DecidableEq, Repr

/-- Modelled from the spec: a BatchRecord of §3 — batch code, medicine name,
manufacturer, manufacturer reliability score, expiry date (calendar day
number), scan count, optional history of scan locations. -/
structure BatchRecord where
  code : String
  name : String
  manufacturer : String
  reliability : ℚ
  expiryDate : ℤ
  scanCount : ℕ
  scanLocations : List (ℚ × ℚ)
deriving Repr, DecidableEq

/-- Modelled from the spec: the Batch Registry of §4.1, a store of batch
records keyed by code. -/
abbrev Registry := List BatchRecord

/-- Modelled from the spec: `lookup(code) -> BatchRecord | NotFound` (§4.1). -/
def lookup (reg : Registry) (code : String) : Option BatchRecord :=
  reg.find? (fun r => r.code == code)

/-- Modelled from the spec: `recordScan(code)` (§4.1), an increment of the
scan count for an existing record, a no-op if the code does not exist. -/
def recordScan (reg : Registry) (code : String) : Registry :=
  reg.map (fun r => if r.code == code then { r with scanCount := r.scanCount + 1 } else r)

/-- Modelled from the spec: the result of the Expiry Evaluator (§4.2). -/
structure ExpiryResult where
  daysRemaining : ℤ
  isExpired : Bool
deriving Repr, DecidableEq

/-- Modelled from the spec: `evaluateExpiry(expiryDate, now)` (§4.2) —
days remaining may be negative, and `isExpired` is true iff
`daysRemaining < 0`. -/
def evaluateExpiry (expiryDate now : ℤ) : ExpiryResult :=
  { daysRemaining := expiryDate - now
    isExpired := decide (expiryDate - now < 0) }

/-- Clamp a rational to the unit interval. -/
def clamp01 (x : ℚ) : ℚ := max 0 (min 1 x)

/-- Modelled from the spec: the injected dependencies of the decision core
(§4.3, §9) — the externally trained frozen anomaly model, its monotonic
calibration transform, the single configured suspicion threshold, the sane
clamping range for the days-to-expiry feature, and the geographic-dispersion
measure. -/
structure EngineConfig where
  score : List ℚ → ℚ
  calibrate : ℚ → ℚ
  threshold : ℚ
  clampLo : ℚ
  clampHi : ℚ
  dispersion : List (ℚ × ℚ) → ℚ

/-- Modelled from the spec: the fixed-order feature vector of §4.3 —
manufacturer reliability, clamped days-to-expiry, scan count, geographic
dispersion of recent scan locations. -/
def features (cfg : EngineConfig) (r : BatchRecord) (now : ℤ) : List ℚ :=
  [ r.reliability
  , max cfg.clampLo (min cfg.clampHi ((r.expiryDate - now : ℤ) : ℚ))
  , (r.scanCount : ℚ)
  , cfg.dispersion r.scanLocations ]

/-- Modelled from the spec: the calibrated anomaly confidence — the raw
model output sent through the engine's fixed monotonic transform and
normalized into [0,1] (§4.3). -/
def anomalyConfidence (cfg : EngineConfig) (raw : ℚ) : ℚ :=
  clamp01 (cfg.calibrate raw)

/-- Modelled from the spec: the fixed certainty value reported for the Fake
branch (§4.4, "e.g., 1.0 — certainty of absence from the official registry"). -/
def fakeConfidence : ℚ := 1

/-- Modelled from the spec: the high, anomaly-independent confidence of the
Expired branch (§4.4). -/
def expiredConfidence : ℚ := 49 / 50

/-- Modelled from the spec: the `batch_info` sub-object of the `/api/verify`
response (§6), present only when the batch was found. -/
structure BatchInfo where
  name : String
  manufacturer : String
  expiry_date : ℤ
  scan_count : ℕ
deriving Repr, DecidableEq

/-- Modelled from the spec: the `/api/verify` response (§6) — status, reason,
confidence, optional batch info. -/
structure VerifyResponse where
  status : Status
  reason : String
  confidence : ℚ
  batch_info : Option BatchInfo

/-- Modelled from the spec: the Classification Aggregator (§4.4), the ordered
four-branch decision — Fake when the lookup finds nothing, otherwise Expired
when the record is expired, otherwise Suspected when the anomaly score exceeds
the threshold, otherwise Valid — together with the registry side effect:
`recordScan` is invoked exactly once on every branch that finds a record. -/
def verify (cfg : EngineConfig) (reg : Registry) (code : String) (now : ℤ) :
    VerifyResponse × Registry :=
  match lookup reg code with
  | none =>
      ({ status := .Fake
         reason := "batch code not found in official database"
         confidence := fakeConfidence
         batch_info := none }, reg)
  | some r =>
      let reg' := recordScan reg code
      let e := evaluateExpiry r.expiryDate now
      let info : BatchInfo :=
        { name := r.name, manufacturer := r.manufacturer
          expiry_date := r.expiryDate, scan_count := r.scanCount }
      if e.isExpired then
        ({ status := .Expired
           reason := "medicine expired " ++ toString (-e.daysRemaining) ++ " days ago"
           confidence := expiredConfidence
           batch_info := some info }, reg')
      else
        let raw := cfg.score (features cfg r now)
        let aconf := anomalyConfidence cfg raw
        if cfg.threshold < raw then
          ({ status := .Suspected
             reason := "unusual scan pattern detected"
             confidence := aconf
             batch_info := some info }, reg')
        else
          ({ status := .Valid
             reason := "medicine is authentic and valid (expires in " ++
               toString e.daysRemaining ++ " days)"
             confidence := clamp01 (1 - aconf)
             batch_info := some info }, reg')

end MedMonitor

namespace MedMonitor

/-! ### Helper lemmas about the registry -/

theorem lookup_nil (code : String) : lookup [] code = none := rfl

theorem lookup_cons_pos (a : BatchRecord) (tl : Registry) (code : String)
    (h : a.code = code) : lookup (a :: tl) code = some a := by
  unfold lookup
  exact List.find?_cons_of_pos _ (by simp [h])

theorem lookup_cons_neg (a : BatchRecord) (tl : Registry) (code : String)
    (h : a.code ≠ code) : lookup (a :: tl) code = lookup tl code := by
  unfold lookup
  exact List.find?_cons_of_neg _ (by simp [h])

theorem recordScan_nil (code : String) : recordScan [] code = [] := rfl

theorem recordScan_cons (a : BatchRecord) (tl : Registry) (code : String) :
    recordScan (a :: tl) code =
      (if a.code = code then { a with scanCount := a.scanCount + 1 } else a) ::
        recordScan tl code := by
  simp [recordScan]

theorem bump_code (a : BatchRecord) :
    ({ a with scanCount := a.scanCount + 1 } : BatchRecord).code = a.code := rfl

theorem lookup_recordScan_self (reg : Registry) (code : String) (r : BatchRecord)
    (h : lookup reg code = some r) :
    lookup (recordScan reg code) code = some { r with scanCount := r.scanCount + 1 } := by
  induction reg with
  | nil => simp [lookup] at h
  | cons a tl ih =>
      by_cases hc : a.code = code
      · rw [lookup_cons_pos a tl code hc] at h
        have hr : a = r := by injection h
        subst hr
        rw [recordScan_cons, if_pos hc]
        exact lookup_cons_pos _ _ _ (by rw [bump_code]; exact hc)
      · rw [lookup_cons_neg a tl code hc] at h
        rw [recordScan_cons, if_neg hc]
        rw [lookup_cons_neg a _ code hc]
        exact ih h

theorem lookup_recordScan_other (reg : Registry) (code c' : String)
    (h : c' ≠ code) :
    lookup (recordScan reg code) c' = lookup reg c' := by
  induction reg with
  | nil => simp [lookup, recordScan]
  | cons a tl ih =>
      rw [recordScan_cons]
      by_cases hc : a.code = code
      · have hne : a.code ≠ c' := by rw [hc]; exact Ne.symm h
        rw [if_pos hc]
        rw [lookup_cons_neg _ _ _ (by rw [bump_code]; exact hne)]
        rw [lookup_cons_neg a tl c' hne]
        exact ih
      · rw [if_neg hc]
        by_cases hd : a.code = c'
        · rw [lookup_cons_pos _ _ _ hd, lookup_cons_pos a tl c' hd]
        · rw [lookup_cons_neg _ _ _ hd, lookup_cons_neg a tl c' hd]
          exact ih

theorem clamp01_nonneg (x : ℚ) : 0 ≤ clamp01 x := le_max_left 0 (min 1 x)

theorem clamp01_le_one (x : ℚ) : clamp01 x ≤ 1 :=
  max_le (by norm_num) (min_le_left 1 x)

theorem verify_snd_of_found (cfg : EngineConfig) (reg : Registry) (code : String)
    (now : ℤ) (r : BatchRecord) (h : lookup reg code = some r) :
    (verify cfg reg code now).2 = recordScan reg code := by
  simp only [verify, h]
  split <;> (try split) <;> rfl

/-! ### Concrete fixtures used by witness theorems -/

/-- A concrete engine configuration: stub scorer, identity calibration,
threshold one half. -/
def cfgW : EngineConfig :=
  { score := fun _ => 0
    calibrate := fun x => x
    threshold := 1
    clampLo := -3650
    clampHi := 3650
    dispersion := fun _ => 0 }

/-- A concrete batch record far from expiry. -/
def recW : BatchRecord :=
  { code := "MED597233X"
    name := "Paracetamol 500mg"
    manufacturer := "PharmaCorp"
    reliability := 1
    expiryDate := 100
    scanCount := 3
    scanLocations := [] }

/-- A concrete batch record whose expiry date is exactly "today" (day 0). -/
def recTodayW : BatchRecord :=
  { code := "MEDTODAY0A"
    name := "Ibuprofen 200mg"
    manufacturer := "PharmaCorp"
    reliability := 1
    expiryDate := 0
    scanCount := 1
    scanLocations := [] }

/-- A concrete registry holding the two fixture records. -/
def regW : Registry := [recW, recTodayW]

end MedMonitor

namespace MedMonitor

/-- C1: For every verification request, the status is produced by an ordered,
short-circuiting four-branch decision: if the registry lookup returns NotFound
the status is Fake; otherwise if the record is expired the status is Expired
(regardless of the anomaly score); otherwise if the anomaly score exceeds the
configured suspicion threshold the status is Suspected; otherwise the status is
Valid.  Exactly one of the four statuses results for every request. -/
theorem verify_ordered_four_branch_decision
    (cfg : EngineConfig) (reg : Registry) (code : String) (now : ℤ) :
    ((verify cfg reg code now).1.status = .Fake ∨
     (verify cfg reg code now).1.status = .Expired ∨
     (verify cfg reg code now).1.status = .Suspected ∨
     (verify cfg reg code now).1.status = .Valid) ∧
    (lookup reg code = none → (verify cfg reg code now).1.status = .Fake) ∧
    (∀ r, lookup reg code = some r →
      ((evaluateExpiry r.expiryDate now).isExpired = true →
        (verify cfg reg code now).1.status = .Expired) ∧
      ((evaluateExpiry r.expiryDate now).isExpired = false →
        (cfg.threshold < cfg.score (features cfg r now) →
          (verify cfg reg code now).1.status = .Suspected) ∧
        (cfg.score (features cfg r now) ≤ cfg.threshold →
          (verify cfg reg code now).1.status = .Valid))) := by
  refine ⟨?_, ?_, ?_⟩
  · cases h : (verify cfg reg code now).1.status <;> simp
  · intro h
    simp [verify, h]
  · intro r hr
    constructor
    · intro he
      simp [verify, hr, he]
    · intro he
      constructor
      · intro ht
        simp [verify, hr, he, ht]
      · intro ht
        simp [verify, hr, he, not_lt.mpr ht]

/-- Witness for C1: the fixture registry classifies an absent code as Fake and
a known, far-from-expiry, low-anomaly code as Valid. -/
theorem verify_ordered_four_branch_decision_witness :
    (verify cfgW regW "FAKE999999Z" 0).1.status = Status.Fake ∧
    (verify cfgW regW "MED597233X" 0).1.status = Status.Valid := by
  refine ⟨(verify_ordered_four_branch_decision cfgW regW "FAKE999999Z" 0).2.1 (by decide), ?_⟩
  exact ((((verify_ordered_four_branch_decision cfgW regW "MED597233X" 0).2.2 recW
    (by decide)).2 (by decide)).2 (by decide))

/-- C2: a batch whose daysRemaining equals 0 (expiry date is today) is
classified as not expired — its status is Valid or Suspected, never Expired;
equivalently, evaluateExpiry reports isExpired true iff daysRemaining is
strictly negative. -/
theorem expiry_boundary_exclusive
    (cfg : EngineConfig) (reg : Registry) (code : String) (now : ℤ) :
    (∀ d n : ℤ, (evaluateExpiry d n).isExpired = true ↔
      (evaluateExpiry d n).daysRemaining < 0) ∧
    (∀ r, lookup reg code = some r →
      (evaluateExpiry r.expiryDate now).daysRemaining = 0 →
      (verify cfg reg code now).1.status ≠ .Expired ∧
      ((verify cfg reg code now).1.status = .Valid ∨
       (verify cfg reg code now).1.status = .Suspected)) := by
  constructor
  · intro d n
    simp [evaluateExpiry]
  · intro r hr h0
    have he : (evaluateExpiry r.expiryDate now).isExpired = false := by
      simp only [evaluateExpiry] at h0 ⊢
      simp [h0]
    by_cases ht : cfg.threshold < cfg.score (features cfg r now)
    · have hs : (verify cfg reg code now).1.status = .Suspected := by
        simp [verify, hr, he, ht]
      rw [hs]
      exact ⟨by simp, Or.inr rfl⟩
    · have hs : (verify cfg reg code now).1.status = .Valid := by
        simp [verify, hr, he, ht]
      rw [hs]
      exact ⟨by simp, Or.inl rfl⟩

/-- Witness for C2: the fixture record expiring exactly today is not
classified Expired. -/
theorem expiry_boundary_exclusive_witness :
    (verify cfgW regW "MEDTODAY0A" 0).1.status ≠ Status.Expired ∧
    ((verify cfgW regW "MEDTODAY0A" 0).1.status = Status.Valid ∨
     (verify cfgW regW "MEDTODAY0A" 0).1.status = Status.Suspected) :=
  (expiry_boundary_exclusive cfgW regW "MEDTODAY0A" 0).2 recTodayW (by decide) (by decide)

/-- C3: for every verification request and every resulting status branch,
the confidence value in the response lies in the closed interval [0, 1]. -/
theorem verify_confidence_unit_interval
    (cfg : EngineConfig) (reg : Registry) (code : String) (now : ℤ) :
    0 ≤ (verify cfg reg code now).1.confidence ∧
    (verify cfg reg code now).1.confidence ≤ 1 := by
  cases hl : lookup reg code with
  | none =>
      simp [verify, hl, fakeConfidence]
  | some r =>
      by_cases he : (evaluateExpiry r.expiryDate now).isExpired
      · have : (verify cfg reg code now).1.confidence = expiredConfidence := by
          simp [verify, hl, he]
        rw [this]
        norm_num [expiredConfidence]
      · by_cases ht : cfg.threshold < cfg.score (features cfg r now)
        · have : (verify cfg reg code now).1.confidence =
            anomalyConfidence cfg (cfg.score (features cfg r now)) := by
            simp [verify, hl, he, ht]
          rw [this]
          exact ⟨clamp01_nonneg _, clamp01_le_one _⟩
        · have : (verify cfg reg code now).1.confidence =
            clamp01 (1 - anomalyConfidence cfg (cfg.score (features cfg r now))) := by
            simp [verify, hl, he, ht]
          rw [this]
          exact ⟨clamp01_nonneg _, clamp01_le_one _⟩

/-- C4: for every request whose registry lookup finds a record, recordScan is
invoked exactly once — the record's scan count increases by exactly 1, other
records are untouched — regardless of the final status; for every request
whose code is unknown, recordScan is never invoked and no record is modified. -/
theorem recordScan_exactly_once
    (cfg : EngineConfig) (reg : Registry) (code : String) (now : ℤ) :
    (lookup reg code = none → (verify cfg reg code now).2 = reg) ∧
    (∀ r, lookup reg code = some r →
      (verify cfg reg code now).2 = recordScan reg code ∧
      lookup ((verify cfg reg code now).2) code =
        some { r with scanCount := r.scanCount + 1 } ∧
      (∀ c', c' ≠ code →
        lookup ((verify cfg reg code now).2) c' = lookup reg c')) := by
  constructor
  · intro h
    simp [verify, h]
  · intro r hr
    have h2 := verify_snd_of_found cfg reg code now r hr
    refine ⟨h2, ?_, ?_⟩
    · rw [h2]
      exact lookup_recordScan_self reg code r hr
    · intro c' hc
      rw [h2]
      exact lookup_recordScan_other reg code c' hc

/-- Witness for C4: verifying the known fixture code bumps its scan count from
3 to 4 and leaves the other record's lookup unchanged. -/
theorem recordScan_exactly_once_witness :
    (verify cfgW regW "MED597233X" 0).2 = recordScan regW "MED597233X" ∧
    lookup ((verify cfgW regW "MED597233X" 0).2) "MED597233X" =
      some { recW with scanCount := recW.scanCount + 1 } ∧
    lookup ((verify cfgW regW "MED597233X" 0).2) "MEDTODAY0A" =
      lookup regW "MEDTODAY0A" := by
  have h := (recordScan_exactly_once cfgW regW "MED597233X" 0).2 recW (by decide)
  exact ⟨h.1, h.2.1, h.2.2 "MEDTODAY0A" (by decide)⟩

end MedMonitor

namespace MedMonitor

/-! ### Frontend embedding (HomePage.js) -/

/-- Shallow embedding of JavaScript string trim on the character list:
drop leading and trailing whitespace. -/
def jsTrimList (l : List Char) : List Char :=
  ((l.dropWhile Char.isWhitespace).reverse.dropWhile Char.isWhitespace).reverse

/-- JavaScript `batchCode.trim()`. -/
def jsTrim (s : String) : String := ⟨jsTrimList s.data⟩

/-- JavaScript `value.toUpperCase()` (basic-latin case mapping). -/
def jsToUpperCase (s : String) : String := ⟨s.data.map Char.toUpper⟩

/-- The HomePage input handler: `onChange` stores
`e.target.value.toUpperCase()` into the `batchCode` state. -/
def batchCodeState (input : String) : String := jsToUpperCase input

/-- The batch code submitted by `handleVerify`: `batchCode.trim()` applied to
the stored (upper-cased) state. -/
def submittedCode (input : String) : String := jsTrim (batchCodeState input)

/-- Browser geolocation coordinates (`position.coords`). -/
structure GeoCoords where
  lat : ℚ
  lng : ℚ
deriving DecidableEq, Repr

/-- The body of the `POST /api/verify` request: the trimmed code, and the
`lat`/`lng` keys spread in exactly when geolocation succeeded. -/
structure VerifyRequestBody where
  code : String
  location : Option GeoCoords
deriving DecidableEq, Repr

/-- The `batch_info` object as rendered by the frontend. -/
structure FrontBatchInfo where
  name : String
  manufacturer : String
  expiry_date : String
  scan_count : ℕ
deriving DecidableEq, Repr

/-- The response data consumed by HomePage (`response.data`), or the locally
built error object. -/
structure ApiVerifyData where
  status : String
  reason : String
  confidence : ℚ
  batch_info : Option FrontBatchInfo
deriving DecidableEq, Repr

/-- The observable outcome of one `handleVerify` run: the HTTP requests it
issued, and the final `result` state (`none` = the React state stays null). -/
structure HandleVerifyOutcome where
  requestsSent : List VerifyRequestBody
  result : Option ApiVerifyData
deriving DecidableEq, Repr

/-- The result HomePage displays when the POST throws (catch block of
`handleVerify`). -/
def errorResult : ApiVerifyData :=
  { status := "Error ❌"
    reason := "Unable to connect to verification service"
    confidence := 0
    batch_info := none }

/-- Shallow embedding of `handleVerify` in HomePage.js: an empty trimmed batch
code returns before any request; otherwise the trimmed code plus optional
geolocation is POSTed, a successful response becomes the result, and a thrown
request is caught and replaced by `errorResult`. -/
def handleVerify (batchCode : String) (geo : Option GeoCoords)
    (api : VerifyRequestBody → Option ApiVerifyData) : HandleVerifyOutcome :=
  if jsTrim batchCode = "" then
    { requestsSent := [], result := none }
  else
    match api { code := jsTrim batchCode, location := geo } with
    | some d =>
        { requestsSent := [{ code := jsTrim batchCode, location := geo }]
          result := some d }
    | none =>
        { requestsSent := [{ code := jsTrim batchCode, location := geo }]
          result := some errorResult }

/-- JavaScript `String.prototype.includes` on the underlying character lists
(used by `getStatusIcon` / `getStatusColor`). -/
def hasInfix (p : List Char) : List Char → Bool
  | [] => p.isPrefixOf []
  | c :: t => p.isPrefixOf (c :: t) || hasInfix p t

/-- `s.includes(pat)` for the status strings of HomePage.js. -/
def jsIncludes (s pat : String) : Bool := hasInfix pat.data s.data

/-! ### Helper lemmas for the frontend embedding -/

theorem char_ofNat_toNat_small {n : Nat} (h : n < 55296) : (Char.ofNat n).toNat = n := by
  rw [Char.ofNat, dif_pos (Or.inl h)]
  rfl

theorem isLower_iff (c : Char) : c.isLower = true ↔ 97 ≤ c.toNat ∧ c.toNat ≤ 122 := by
  simp [Char.isLower, UInt32.le_def, BitVec.le_def, Char.toNat, UInt32.toNat]

theorem toUpper_isLower_eq_false (c : Char) : (Char.toUpper c).isLower = false := by
  rw [Char.toUpper]
  split
  · rename_i h
    have h2 : c.toNat - 32 < 55296 := by omega
    rw [Bool.eq_false_iff]
    intro hl
    have h3 := (isLower_iff _).mp hl
    rw [char_ofNat_toNat_small h2] at h3
    omega
  · rename_i h
    rw [Bool.eq_false_iff]
    intro hl
    have h3 := (isLower_iff _).mp hl
    exact h ⟨h3.1, h3.2⟩

theorem jsTrimList_subset (l : List Char) : jsTrimList l ⊆ l := by
  unfold jsTrimList
  intro c hc
  rw [List.mem_reverse] at hc
  have hc2 := List.dropWhile_subset Char.isWhitespace hc
  rw [List.mem_reverse] at hc2
  exact List.dropWhile_subset Char.isWhitespace hc2

theorem jsTrim_eq_empty_of_whitespace (s : String)
    (h : ∀ c ∈ s.data, c.isWhitespace = true) : jsTrim s = "" := by
  have h1 : s.data.dropWhile Char.isWhitespace = [] :=
    List.dropWhile_eq_nil_iff.mpr (fun c hc => by simpa using h c hc)
  unfold jsTrim jsTrimList
  rw [h1]
  rfl

end MedMonitor

namespace MedMonitor

/-- C5: for every batch-code input that is empty or consists only of
whitespace, submitting the verification form performs no verification:
handleVerify returns before issuing any HTTP request, no classification is
performed, and the displayed result stays unset (remains null). -/
theorem whitespace_batch_code_no_request (batchCode : String)
    (geo : Option GeoCoords) (api : VerifyRequestBody → Option ApiVerifyData)
    (h : ∀ c ∈ batchCode.data, c.isWhitespace = true) :
    handleVerify batchCode geo api = { requestsSent := [], result := none } := by
  unfold handleVerify
  rw [if_pos (jsTrim_eq_empty_of_whitespace batchCode h)]

/-- Witness for C5: an all-whitespace input issues no request and leaves the
result null. -/
theorem whitespace_batch_code_no_request_witness :
    handleVerify "   " none (fun _ => none) =
      { requestsSent := [], result := none } :=
  whitespace_batch_code_no_request "   " none (fun _ => none) (by decide)

/-- C6: for every verification attempt in which the POST /api/verify call
fails (throws), the displayed result has status "Error ❌", confidence 0 and
reason "Unable to connect to verification service" — a channel distinct from
the four domain labels Fake, Expired, Suspected and Valid. -/
theorem api_failure_distinct_error_channel (s : String) (geo : Option GeoCoords)
    (api : VerifyRequestBody → Option ApiVerifyData)
    (h1 : jsTrim s ≠ "")
    (h2 : api { code := jsTrim s, location := geo } = none) :
    (handleVerify s geo api).result = some errorResult ∧
    errorResult.status = "Error ❌" ∧
    errorResult.confidence = 0 ∧
    errorResult.reason = "Unable to connect to verification service" ∧
    jsIncludes errorResult.status "Fake" = false ∧
    jsIncludes errorResult.status "Expired" = false ∧
    jsIncludes errorResult.status "Suspected" = false ∧
    jsIncludes errorResult.status "Valid" = false := by
  refine ⟨?_, rfl, rfl, rfl, by decide, by decide, by decide, by decide⟩
  unfold handleVerify
  rw [if_neg h1, h2]

/-- Witness for C6: a failing POST on a concrete non-empty code yields the
error result. -/
theorem api_failure_distinct_error_channel_witness :
    (handleVerify "ABC123" none (fun _ => none)).result = some errorResult ∧
    jsIncludes errorResult.status "Valid" = false := by
  have h := api_failure_distinct_error_channel "ABC123" none (fun _ => none)
    (by decide) rfl
  exact ⟨h.1, h.2.2.2.2.2.2.2⟩

/-- C7: the stored batch-code state equals the typed string upper-cased, the
submitted code is the upper-cased, whitespace-trimmed input, and every
submitted batch code contains no lowercase letters. -/
theorem batch_code_case_normalized (input : String) :
    batchCodeState input = jsToUpperCase input ∧
    submittedCode input = jsTrim (jsToUpperCase input) ∧
    (submittedCode input).data.all (fun c => !c.isLower) = true := by
  refine ⟨rfl, rfl, ?_⟩
  rw [List.all_eq_true]
  intro c hc
  have hc2 : c ∈ (jsToUpperCase input).data := jsTrimList_subset _ hc
  simp only [jsToUpperCase, List.mem_map] at hc2
  obtain ⟨a, _, ha⟩ := hc2
  rw [← ha]
  simp [toUpper_isLower_eq_false a]

/-- C8: for every submission with a non-empty batch code, exactly one POST
/api/verify request is sent; its body always carries the trimmed code, and
carries the location exactly when browser geolocation succeeded — a
geolocation failure (location = none) never prevents the request. -/
theorem request_body_code_and_location (input : String) (geo : Option GeoCoords)
    (api : VerifyRequestBody → Option ApiVerifyData)
    (h : jsTrim input ≠ "") :
    (handleVerify input geo api).requestsSent =
      [{ code := jsTrim input, location := geo }] ∧
    (∀ p : GeoCoords,
      ({ code := jsTrim input, location := geo } : VerifyRequestBody).location = some p
        ↔ geo = some p) := by
  constructor
  · unfold handleVerify
    rw [if_neg h]
    cases api { code := jsTrim input, location := geo } <;> rfl
  · intro p
    exact Iff.rfl

/-- Witness for C8: a concrete submission without geolocation still sends
exactly one request carrying the trimmed code and no location keys. -/
theorem request_body_code_and_location_witness :
    (handleVerify " MED597233X " none (fun _ => none)).requestsSent =
      [{ code := jsTrim " MED597233X ", location := none }] :=
  (request_body_code_and_location " MED597233X " none (fun _ => none) (by decide)).1

end MedMonitor

namespace MedMonitor

/-! ### Stats aggregator (modelled from the spec) and its dashboard consumer -/

/-- Modelled from the spec: a VerificationEvent (§3) — batch code (may
reference a nonexistent batch), resulting status, confidence, reason,
optional geolocation, immutable creation timestamp (seconds). -/
structure VerificationEvent where
  batch_code : String
  status : Status
  confidence : ℚ
  reason : String
  location : Option GeoCoords
  timestamp : ℕ
deriving DecidableEq, Repr

/-- The calendar day an event's timestamp falls in. -/
def eventDay (e : VerificationEvent) : ℕ := e.timestamp / 86400

/-- The four statuses, in the fixed order of §4.4. -/
def allStatuses : List Status := [.Fake, .Expired, .Suspected, .Valid]

/-- Modelled from the spec: the Stats Aggregator summary shape of §4.6 —
`{totalCount, countsByStatus, dailyCounts, totalBatches}`. -/
structure StatsSummary where
  totalCount : ℕ
  countsByStatus : List (Status × ℕ)
  dailyCounts : List (ℕ × ℕ)
  totalBatches : ℕ
deriving DecidableEq, Repr

/-- Modelled from the spec: `summarize(events)` (§4.6) — total event count,
a count for every one of the four statuses (zero when absent), counts
bucketed by calendar day in ascending day order, and the batch-collection
size. -/
def summarize (events : List VerificationEvent) (totalBatches : ℕ) : StatsSummary :=
  { totalCount := events.length
    countsByStatus :=
      allStatuses.map (fun s => (s, (events.filter (fun e => e.status == s)).length))
    dailyCounts :=
      (List.insertionSort (· ≤ ·) (events.map eventDay).dedup).map
        (fun d => (d, (events.filter (fun e => eventDay e == d)).length))
    totalBatches := totalBatches }

/-- Modelled from the spec: the `GET /api/stats` endpoint (§6) returns the
§4.6 summary over the logged events, with the registry size as the batch
count. -/
def apiStats (events : List VerificationEvent) (reg : Registry) : StatsSummary :=
  summarize events reg.length

/-- The dashboard's read of one status count
(`stats.status_distribution.valid || 0` in AdminDashboard.js). -/
def statusCount (m : List (Status × ℕ)) (s : Status) : ℕ :=
  ((m.find? (fun p => p.1 == s)).map Prod.snd).getD 0

/-- The four statistics cards AdminDashboard.js renders from the stats
response: total verifications, valid count, fake-plus-suspected count, and
database size. -/
structure DashboardCards where
  totalVerifications : ℕ
  validCount : ℕ
  flaggedCount : ℕ
  databaseSize : ℕ
deriving DecidableEq, Repr

/-- AdminDashboard.js statistics cards, computed from the summary fields. -/
def renderCards (s : StatsSummary) : DashboardCards :=
  { totalVerifications := s.totalCount
    validCount := statusCount s.countsByStatus .Valid
    flaggedCount :=
      statusCount s.countsByStatus .Fake + statusCount s.countsByStatus .Suspected
    databaseSize := s.totalBatches }

/-- The day labels of the daily-verifications bar chart
(`stats.daily_verifications.map(item => item._id)`). -/
def barChartDays (s : StatsSummary) : List ℕ := s.dailyCounts.map Prod.fst

/-- The data series of the daily-verifications bar chart
(`stats.daily_verifications.map(item => item.count)`). -/
def barChartCounts (s : StatsSummary) : List ℕ := s.dailyCounts.map Prod.snd

end MedMonitor

namespace MedMonitor

/-- C9: GET /api/stats returns the Stats Aggregator summary shape
{totalCount, countsByStatus, dailyCounts, totalBatches}, with countsByStatus
containing all four statuses (zero-filled if absent) and dailyCounts bucketed
by calendar day ascending — the same shape the admin dashboard consumes for
its statistics cards and charts. -/
theorem stats_summary_shape (events : List VerificationEvent) (reg : Registry) :
    (apiStats events reg).totalCount = events.length ∧
    (apiStats events reg).totalBatches = reg.length ∧
    (∀ st : Status,
      (st, (events.filter (fun e => e.status == st)).length) ∈
        (apiStats events reg).countsByStatus) ∧
    (∀ st : Status, (∀ e ∈ events, e.status ≠ st) →
      (st, 0) ∈ (apiStats events reg).countsByStatus) ∧
    List.Sorted (· ≤ ·) (barChartDays (apiStats events reg)) ∧
    (renderCards (apiStats events reg)).totalVerifications = events.length ∧
    (renderCards (apiStats events reg)).validCount =
      (events.filter (fun e => e.status == Status.Valid)).length ∧
    (renderCards (apiStats events reg)).flaggedCount =
      (events.filter (fun e => e.status == Status.Fake)).length +
      (events.filter (fun e => e.status == Status.Suspected)).length ∧
    (renderCards (apiStats events reg)).databaseSize = reg.length := by
  have hmem : ∀ st : Status,
      (st, (events.filter (fun e => e.status == st)).length) ∈
        (apiStats events reg).countsByStatus := by
    intro st
    cases st <;> simp [apiStats, summarize, allStatuses]
  refine ⟨rfl, rfl, hmem, ?_, ?_, rfl, rfl, rfl, rfl⟩
  · intro st h
    have hf : events.filter (fun e => e.status == st) = [] := by
      rw [List.filter_eq_nil_iff]
      intro e he
      simpa using h e he
    have := hmem st
    rw [hf] at this
    simpa using this
  · have hdays : barChartDays (apiStats events reg) =
        List.insertionSort (· ≤ ·) (events.map eventDay).dedup := by
      unfold barChartDays apiStats summarize
      rw [List.map_map]
      exact List.map_id'' (fun x => rfl) _
    rw [hdays]
    exact List.sorted_insertionSort _ _

/-- A concrete logged verification event used by witness theorems. -/
def evW : VerificationEvent :=
  { batch_code := "MED597233X"
    status := Status.Valid
    confidence := 1
    reason := "ok"
    location := none
    timestamp := 86400 * 3 + 7 }

/-- Witness for C9: over a one-event log, an absent status (Fake) is reported
zero-filled. -/
theorem stats_summary_shape_witness :
    (Status.Fake, 0) ∈ (apiStats [evW] regW).countsByStatus :=
  (stats_summary_shape [evW] regW).2.2.2.1 Status.Fake (by decide)

end MedMonitor

namespace MedMonitor

/-! ### Admin routing and authentication (App.js, AdminLogin.js) -/

/-- The events that can reach App's admin-auth state: a login response with
its `success` flag and token (AdminLogin.handleSubmit calls `onLogin(token)`
only when `response.data.success` is true), a thrown login request (caught,
no state change), and logout. -/
inductive AdminEvent
  | loginResponse (success : Bool) (token : String)
  | loginError
  | logout

/-- App.js component state: `isAdminAuthenticated` and `adminToken`. -/
structure AppState where
  isAdminAuthenticated : Bool
  adminToken : Option String
deriving DecidableEq, Repr

/-- `useState(false)` / `useState(null)` in App.js. -/
def initialAppState : AppState :=
  { isAdminAuthenticated := false, adminToken := none }

/-- One state transition of App.js: `handleAdminLogin` runs only on a
successful login response (per AdminLogin.handleSubmit), a failed or thrown
login leaves the state unchanged, and `handleAdminLogout` clears it. -/
def appStep (s : AppState) : AdminEvent → AppState
  | .loginResponse success token =>
      if success then { isAdminAuthenticated := true, adminToken := some token } else s
  | .loginError => s
  | .logout => { isAdminAuthenticated := false, adminToken := none }

/-- The App state after a sequence of login/logout events. -/
def runApp (events : List AdminEvent) : AppState :=
  events.foldl appStep initialAppState

/-- What the `/admin` route renders. -/
inductive AdminRoute
  | dashboard
  | redirectToLogin
deriving DecidableEq, Repr

/-- The `/admin` route of App.js: AdminDashboard when authenticated, otherwise
`Navigate to=/admin/login`. -/
def renderAdminRoute (s : AppState) : AdminRoute :=
  if s.isAdminAuthenticated then .dashboard else .redirectToLogin

/-- Whether an event is a login response whose `success` flag is true — the
only event through which AdminLogin invokes `onLogin`. -/
def isSuccessfulLogin : AdminEvent → Bool
  | .loginResponse success _ => success
  | .loginError => false
  | .logout => false

theorem auth_implies_login (events : List AdminEvent) (s : AppState)
    (h : (events.foldl appStep s).isAdminAuthenticated = true) :
    s.isAdminAuthenticated = true ∨ ∃ e ∈ events, isSuccessfulLogin e = true := by
  induction events generalizing s with
  | nil => exact Or.inl h
  | cons e tl ih =>
      rcases ih (appStep s e) h with h1 | h2
      · cases e with
        | loginResponse success token =>
            by_cases hs : success = true
            · exact Or.inr ⟨.loginResponse success token, List.mem_cons_self _ _,
                by simp [isSuccessfulLogin, hs]⟩
            · rw [appStep, if_neg hs] at h1
              exact Or.inl h1
        | loginError => exact Or.inl h1
        | logout => simp [appStep] at h1
      · obtain ⟨e', he', hs'⟩ := h2
        exact Or.inr ⟨e', List.mem_cons_of_mem _ he', hs'⟩

/-- C10: the admin dashboard is never rendered without a successful login —
App starts unauthenticated with a null token, the /admin route renders
AdminDashboard only when isAdminAuthenticated, and isAdminAuthenticated
becomes true only via handleAdminLogin, which AdminLogin invokes only when
the login response reports success. -/
theorem admin_dashboard_requires_login :
    initialAppState.isAdminAuthenticated = false ∧
    initialAppState.adminToken = none ∧
    (∀ s : AppState,
      renderAdminRoute s = .dashboard ↔ s.isAdminAuthenticated = true) ∧
    (∀ events : List AdminEvent,
      renderAdminRoute (runApp events) = .dashboard →
      ∃ e ∈ events, isSuccessfulLogin e = true) := by
  have hrender : ∀ s : AppState,
      renderAdminRoute s = .dashboard ↔ s.isAdminAuthenticated = true := by
    intro s
    by_cases h : s.isAdminAuthenticated = true
    · simp [renderAdminRoute, h]
    · simp [renderAdminRoute, h]
  refine ⟨rfl, rfl, hrender, ?_⟩
  intro events h
  have hauth : (runApp events).isAdminAuthenticated = true := (hrender _).mp h
  rcases auth_implies_login events initialAppState hauth with h1 | h2
  · simp [initialAppState] at h1
  · exact h2

/-- Witness for C10: after one successful login response the dashboard is
rendered, and the trace indeed contains a successful login. -/
theorem admin_dashboard_requires_login_witness :
    ∃ e ∈ [AdminEvent.loginResponse true "token-1"], isSuccessfulLogin e = true :=
  admin_dashboard_requires_login.2.2.2 [AdminEvent.loginResponse true "token-1"] rfl

end MedMonitor
